import Mathlib

/-!
Shallow embedding of the tool-dispatch and result-formatting core of the
bigquery-mcp-sql-generator repository (files `src/adk_agent.py`,
`src/planning_agent.py`, `src/mcp_server.py`), together with theorems
settling the specification claims about it.

Python dicts are modelled as association lists with unique keys; Python
scalar cell values as the inductive `Value` (floats are not needed by any
claim and are omitted); Python exceptions as `Except String`.
-/

set_option maxRecDepth 8000

namespace BQMCP

/-- Scalar cell value, mirroring the Python scalars that reach the
formatter: `None`, `bool`, `int`, `str`.  (`float` never occurs in any
claim and is omitted.) -/
inductive Value where
  | null : Value
  | bool (b : Bool) : Value
  | int (n : Int) : Value
  | str (s : String) : Value
deriving DecidableEq

/-- A Python dict from column name to scalar, as an association list
(unique keys, insertion order preserved, as in Python 3.7+). -/
abbrev Record : Type := List (String × Value)

/-- Python `k in d` for an association-list dict. -/
def hasKey (k : String) (l : List (String × α)) : Bool :=
  l.any (fun p => p.1 == k)

/-- Python `d.get(k)` / `d[k]` lookup for an association-list dict. -/
def getKey (k : String) (l : List (String × α)) : Option α :=
  (l.find? (fun p => p.1 == k)).map Prod.snd

/-- Python `del d[k]` for an association-list dict. -/
def delKey (k : String) (l : List (String × α)) : List (String × α) :=
  l.filter (fun p => !(p.1 == k))

/-- Python `d[k] = v` for an association-list dict: overwrite in place if
the key exists, otherwise append at the end (Python insertion order). -/
def setKey (k : String) (v : α) (l : List (String × α)) : List (String × α) :=
  if hasKey k l then l.map (fun p => if p.1 == k then (k, v) else p)
  else l ++ [(k, v)]

/-- Python `str(value)` on a scalar (`str(None) = "None"`,
`str(True) = "True"`). -/
def pyStrValue : Value → String
  | .null => "None"
  | .bool b => if b then "True" else "False"
  | .int n => toString n
  | .str s => s

/-- One cell of the markdown table, from `format_sql_results_as_table`
(`src/adk_agent.py` lines 110-121): `None → "NULL"`; `bool`/`int` → its
`str(...)` form, untruncated; anything else → `str(value)` truncated to
its first 47 characters plus `"..."` when longer than 50 characters. -/
def formatCell : Value → String
  | .null => "NULL"
  | .bool b => if b then "True" else "False"
  | .int n => toString n
  | .str s => if s.length > 50 then s.take 47 ++ "..." else s

/-- Python `row.get(col, "")` followed by the cell formatting: a missing
key defaults to the empty string, which the `else` branch stringifies and
leaves untruncated. -/
def formatCellD : Option Value → String
  | none => formatCell (.str "")
  | some v => formatCell v

/-- The list of formatted cells of one data row (`row_values` in
`format_sql_results_as_table`): one cell per header column, in header
order, via `row.get(col, "")`. -/
def rowValues (columns : List String) (row : Record) : List String :=
  columns.map (fun col => formatCellD (getKey col row))

/-- One rendered data row: `"| " + " | ".join(row_values) + " |"`. -/
def renderRow (columns : List String) (row : Record) : String :=
  "| " ++ String.intercalate " | " (rowValues columns row) ++ " |"

/-- `format_sql_results_as_table` (`src/adk_agent.py` lines 81-126), on a
list-of-dicts argument (the only shape the claims concern).  On `[]` the
first guard `if not results or not isinstance(results, list)` fires —
the empty list is falsy — and the function returns `str([])`, which is
the two-character string `"[]"`; the later `len(results) == 0` branch
returning `"No results found."` is unreachable for list input.  On a
non-empty list: if the first record has an `error` key, return
`"Error: <message>"`; otherwise render header, separator and one row per
record, joined by newlines. -/
def format_sql_results_as_table : List Record → String
  | [] => "[]"
  | first :: rest =>
    if hasKey "error" first then
      "Error: " ++ pyStrValue ((getKey "error" first).getD .null)
    else
      let columns := first.map Prod.fst
      let header := "| " ++ String.intercalate " | " columns ++ " |"
      let separator := "|" ++ String.intercalate "|" (columns.map (fun _ => "---")) ++ "|"
      String.intercalate "\n" (header :: separator :: (first :: rest).map (renderRow columns))

example : format_sql_results_as_table [] = "[]" := rfl

example :
    format_sql_results_as_table [[("a", .int 1), ("b", .str "x")], [("a", .int 2)]] =
      "| a | b |\n|---|---|\n| 1 | x |\n| 2 |  |" := rfl

example : format_sql_results_as_table [[("error", .str "boom")]] = "Error: boom" := rfl

/-- Tool-call arguments: a Python dict from parameter name to string
value (every argument any claim exercises is a string: SQL text, dataset
and table identifiers). -/
abbrev Args : Type := List (String × String)

/-- One parsed tool call, `{"name": ..., "arguments": {...}}`. -/
structure ToolCall where
  name : String
  arguments : Args
deriving DecidableEq

/-- A tool's returned value: the data-access client returns a list of
string identifiers, a metadata dict, or a list of row dicts. -/
inductive RVal where
  | strs (l : List String) : RVal
  | dict (r : Record) : RVal
  | rows (rs : List Record) : RVal
deriving DecidableEq

/-- One entry of the dispatch loop's `results` list:
`{"tool": tool_name, "result": result}`. -/
structure ToolResult where
  tool : String
  result : RVal
deriving DecidableEq

/-- The data-access client (`BigQueryClient` in `src/mcp_server.py`).
Every method catches its own exceptions and returns an error marker
value instead of raising, so the methods are total functions; the client
is a parameter of the embedding. -/
structure BQClient where
  list_datasets : List String
  get_dataset_info : String → Record
  list_tables : String → List String
  get_table_info : String → String → Record
  execute_query : String → List Record

/-- Alias normalization for the `execute_sql` tool
(`src/adk_agent.py` lines 251-256): if the arguments contain `sql` and
not `query`, rename `sql` to `query` (assign then delete); else if they
contain `sql_query` and not `query`, rename `sql_query` to `query`. -/
def normalize_execute_sql_args (args : Args) : Args :=
  if hasKey "sql" args && !hasKey "query" args then
    delKey "sql" (setKey "query" ((getKey "sql" args).getD "") args)
  else if hasKey "sql_query" args && !hasKey "query" args then
    delKey "sql_query" (setKey "query" ((getKey "sql_query" args).getD "") args)
  else args

/-- Python keyword application `f(**args)` for a one-parameter function:
succeeds exactly when the dict's keys are exactly the parameter name,
otherwise raises a `TypeError` (missing or unexpected keyword
argument). -/
def callOneArg (param : String) (f : String → α) (args : Args) : Except String α :=
  if args.all (fun p => p.1 == param) then
    match getKey param args with
    | some v => .ok (f v)
    | none => .error ("TypeError: missing a required argument: " ++ param)
  else .error "TypeError: got an unexpected keyword argument"

/-- Python keyword application `f(**args)` for a two-parameter function. -/
def callTwoArg (p1 p2 : String) (f : String → String → α) (args : Args) :
    Except String α :=
  if args.all (fun p => p.1 == p1 || p.1 == p2) then
    match getKey p1 args, getKey p2 args with
    | some v1, some v2 => .ok (f v1 v2)
    | _, _ => .error "TypeError: missing a required argument"
  else .error "TypeError: got an unexpected keyword argument"

/-- The if/elif ladder dispatching one tool call
(`src/adk_agent.py` lines 237-259).  `list_dataset_ids` is called with no
arguments; `get_dataset_info` and `get_table_info` first filter the
argument dict down to their declared parameter names; `execute_sql`
first normalizes the `sql`/`sql_query` aliases; `list_table_ids` passes
the arguments through unfiltered; an unrecognized name yields the dict
`{"error": "Unknown tool: <name>"}` without raising.  A `TypeError`
raised by keyword application is an exception escaping this call
(`Except.error`): there is no per-call handler in the loop. -/
def dispatch_one (client : BQClient) (tool_name : String) (arguments : Args) :
    Except String RVal :=
  if tool_name == "list_dataset_ids" then .ok (.strs client.list_datasets)
  else if tool_name == "get_dataset_info" then
    let valid_args := arguments.filter (fun p => p.1 == "dataset_id")
    (callOneArg "dataset_id" client.get_dataset_info valid_args).map .dict
  else if tool_name == "list_table_ids" then
    (callOneArg "dataset_id" client.list_tables arguments).map .strs
  else if tool_name == "get_table_info" then
    let valid_args := arguments.filter (fun p => p.1 == "dataset_id" || p.1 == "table_id")
    (callTwoArg "dataset_id" "table_id" client.get_table_info valid_args).map .dict
  else if tool_name == "execute_sql" then
    (callOneArg "query" client.execute_query (normalize_execute_sql_args arguments)).map .rows
  else .ok (.dict [("error", .str ("Unknown tool: " ++ tool_name))])

/-- The dispatch loop over one batch (`src/adk_agent.py` lines 229-262):
`results = []; for tool_call in tool_calls: ... results.append(...)`.
The loop body has no `try`/`except`, so an exception raised while
dispatching one call propagates out of the loop at once: the calls after
it never execute and the partial `results` list is abandoned
(`Except.error`). -/
def execute_tool_calls (client : BQClient) : List ToolCall → Except String (List ToolResult)
  | [] => .ok []
  | c :: rest =>
    match dispatch_one client c.name c.arguments with
    | .error e => .error e
    | .ok r =>
      match execute_tool_calls client rest with
      | .error e => .error e
      | .ok rs => .ok (⟨c.name, r⟩ :: rs)

/-- A concrete client used to evaluate the dispatch model on explicit
inputs. -/
def testClient : BQClient where
  list_datasets := ["IndianAPI"]
  get_dataset_info := fun d => [("dataset_id", .str d)]
  list_tables := fun _ => ["IndianAPI"]
  get_table_info := fun _ t =>
    [("table_id", .str t), ("num_rows", .int 93), ("num_columns", .int 17)]
  execute_query := fun _ => [[("Ticker", .str "TCS"), ("Sector", .str "Technology")]]

example :
    execute_tool_calls testClient [⟨"list_dataset_ids", []⟩] =
      .ok [⟨"list_dataset_ids", .strs ["IndianAPI"]⟩] := rfl

example :
    execute_tool_calls testClient [⟨"bogus", []⟩, ⟨"list_dataset_ids", []⟩] =
      .ok [⟨"bogus", .dict [("error", .str "Unknown tool: bogus")]⟩,
           ⟨"list_dataset_ids", .strs ["IndianAPI"]⟩] := rfl

example :
    execute_tool_calls testClient [⟨"execute_sql", []⟩, ⟨"list_dataset_ids", []⟩] =
      .error "TypeError: missing a required argument: query" := rfl

example :
    normalize_execute_sql_args [("sql", "SELECT 1")] = [("query", "SELECT 1")] := rfl

/-- Containment of one character sequence inside another: the needle
occurs at some position of the haystack. -/
def containsSeq (needle : List Char) : List Char → Bool
  | [] => needle.isEmpty
  | c :: rest => needle.isPrefixOf (c :: rest) || containsSeq needle rest

/-- Python substring containment `needle in hay`. -/
def strContainsSub (hay needle : String) : Bool :=
  containsSeq needle.data hay.data

/-- Python `s.lower()` (character-wise lowering; the queries and
keywords the claims exercise are ASCII, where the two agree).  Defined
by structural recursion over the character list so that the kernel can
evaluate it. -/
def pyLower (s : String) : String :=
  ⟨s.data.map Char.toLower⟩

/-- The fixed vocabulary of the analysis classifier in `run_agent`
(`src/adk_agent.py` line 267). -/
def analysis_keywords : List String :=
  ["analyse", "analyze", "analysis", "understand", "summary", "summarize",
   "nature", "explain", "insight", "provide", "find", "different", "compare",
   "trend", "pattern"]

/-- `is_analysis_query` (`src/adk_agent.py` line 268):
`any(keyword in prompt.lower() for keyword in analysis_keywords)` — plain
substring containment on the lowercased prompt. -/
def is_analysis_query (prompt : String) : Bool :=
  analysis_keywords.any (fun keyword => strContainsSub (pyLower prompt) keyword)

/-- A word character in the sense of the regex `\b` boundary: for the
ASCII queries and keywords the claims exercise, Python `\w` is exactly
a letter, a digit or an underscore. -/
def isWordChar (c : Char) : Bool :=
  c.isAlphanum || c == '_'

/-- A `\b` boundary holds against an adjacent character that is absent
(start or end of the text) or is not a word character. -/
def boundaryOk : Option Char → Bool
  | none => true
  | some c => !isWordChar c

/-- The keyword occurs at the start of `s`, with `prev` the character
just before this position, and both `\b` boundaries hold. -/
def occursHereWB (kw s : List Char) (prev : Option Char) : Bool :=
  kw.isPrefixOf s && boundaryOk prev && boundaryOk (s.drop kw.length).head?

/-- `re.search` of the pattern `\b<kw>\b`: some position of the text
carries a boundary-delimited occurrence of the keyword. -/
def searchWB (kw : List Char) : Option Char → List Char → Bool
  | prev, [] => kw.isEmpty && boundaryOk prev
  | prev, c :: rest => occursHereWB kw (c :: rest) prev || searchWB kw (some c) rest

/-- The fixed vocabulary of `_needs_complex_reasoning`
(`src/planning_agent.py` lines 60-64). -/
def complex_keywords : List String :=
  ["analyze", "analysis", "compare", "trend", "pattern", "insight",
   "relationship", "correlation", "forecast", "predict", "summary",
   "recommend", "suggestion", "why", "how", "explain", "understand"]

/-- `_needs_complex_reasoning` (`src/planning_agent.py` lines 55-74):
for each keyword, `re.search(r"\b" + re.escape(keyword) + r"\b",
query.lower())`; true when any keyword matches with word boundaries. -/
def needs_complex_reasoning (query : String) : Bool :=
  complex_keywords.any (fun keyword => searchWB keyword.data none (pyLower query).data)

example : is_analysis_query "I want to re-analyzer this" = true := rfl
example : needs_complex_reasoning "I want to re-analyzer this" = false := rfl
example : needs_complex_reasoning "please analyze this" = true := rfl

/-- The accumulator step of the scan at `src/adk_agent.py` lines 278-283:
`table_info` and `query_results` both take a `get_table_info` result;
`query_results` alone takes an `execute_sql` result; every other tool
leaves both unchanged.  The accumulator is the pair
`(table_info, query_results)`. -/
def analysisScanStep (acc : Option RVal × Option RVal) (r : ToolResult) :
    Option RVal × Option RVal :=
  if r.tool == "get_table_info" then (some r.result, some r.result)
  else if r.tool == "execute_sql" then (acc.1, some r.result)
  else acc

/-- The full scan of the batch results, in order, starting from
`table_info = None; query_results = None`. -/
def scanResults (results : List ToolResult) : Option RVal × Option RVal :=
  results.foldl analysisScanStep (none, none)

/-- The `query_results` value the analytical formatter inspects. -/
def queryResultsOf (results : List ToolResult) : Option RVal :=
  (scanResults results).2

/-- The enumerated sector list (`src/adk_agent.py` lines 298-300): for
each of the first 10 rows, `f"{i}. {row.get('Sector', 'Unknown')}\n"`
with `i` counting from 1. -/
def sectorLines (rs : List Record) : String :=
  String.join ((List.enumFrom 1 (rs.take 10)).map (fun p =>
    toString p.1 ++ ". " ++
      (match getKey "Sector" p.2 with
       | some v => pyStrValue v
       | none => "Unknown") ++ "\n"))

/-- The "Sector Analysis" block (`src/adk_agent.py` lines 291-313). -/
def sectorBlock (rs : List Record) : String :=
  "**Sector Analysis:**\n\n" ++
  "This query reveals the different industrial sectors represented in the IndianAPI dataset.\n\n" ++
  "**Total sectors identified**: " ++ toString rs.length ++ "\n\n" ++
  "**Sector List:**\n" ++ sectorLines rs ++
  (if rs.length > 10 then "... and " ++ toString (rs.length - 10) ++ " more sectors\n\n" else "") ++
  "**Analysis Observations:**\n" ++
  "- The dataset covers a diverse range of industrial sectors\n" ++
  "- Major sectors include Industrials, Technology, and Basic Materials\n" ++
  "- Sector diversity indicates comprehensive market coverage\n\n" ++
  "**Recommended Actions:**\n" ++
  "- Analyze sector distribution and representation\n" ++
  "- Compare performance across different sectors\n" ++
  "- Identify sector-specific investment opportunities\n\n"

/-- The "Table Summary" block (`src/adk_agent.py` lines 325-337), from
the dict held in `query_results` (`d.get(key, 'Unknown')` rendered by
`str`). -/
def tableSummaryBlock (r : Record) : String :=
  "**Table Summary:**\n\n" ++
  "- **Table Name**: " ++
    (match getKey "table_id" r with | some v => pyStrValue v | none => "Unknown") ++ "\n" ++
  "- **Number of Rows**: " ++
    (match getKey "num_rows" r with | some v => pyStrValue v | none => "Unknown") ++ "\n" ++
  "- **Number of Columns**: " ++
    (match getKey "num_columns" r with | some v => pyStrValue v | none => "Unknown") ++ "\n\n" ++
  "**Table Characteristics:**\n" ++
  "This table contains Indian stock market data with comprehensive financial and technical analysis information.\n\n" ++
  "**Data Structure:**\n" ++
  "- Stock identification information (tickers, company names)\n" ++
  "- Sector and industry classifications\n" ++
  "- Technical trading indicators and recommendations\n" ++
  "- Price data and performance metrics\n\n"

/-- The analytical branch of `run_agent` (`src/adk_agent.py` lines
270-341).  The branch chain mirrors the Python truthiness tests on
`query_results`: a non-empty list whose first element is a dict without
an `error` key goes to the sector or generic table block; a non-empty
list of non-dicts, or a list whose first dict has an `error` key, yields
the "Unable to retrieve" notice; a non-empty dict containing `table_id`
yields the "Table Summary"; everything else (no result, empty list,
empty dict, dict without `table_id`) yields "No data found". -/
def analytical_response (prompt : String) (results : List ToolResult) : String :=
  "## Analysis Results\n\n" ++
  match queryResultsOf results with
  | some (.rows (first :: rest)) =>
    if !hasKey "error" first then
      if strContainsSub (pyLower prompt) "sector" &&
         first.any (fun p => strContainsSub p.1 "Sector") then
        sectorBlock (first :: rest)
      else
        "**Query Results:**\n\n" ++ format_sql_results_as_table (first :: rest) ++ "\n\n"
    else "Unable to retrieve query results for detailed analysis.\n\n"
  | some (.rows []) => "No data found for the requested analysis.\n\n"
  | some (.strs []) => "No data found for the requested analysis.\n\n"
  | some (.strs (_ :: _)) => "Unable to retrieve query results for detailed analysis.\n\n"
  | some (.dict r) =>
    if !r.isEmpty && hasKey "table_id" r then tableSummaryBlock r
    else "No data found for the requested analysis.\n\n"
  | none => "No data found for the requested analysis.\n\n"

/-- The reasoning prompt built by `_add_reasoning`
(`src/planning_agent.py` lines 113-130): a fixed template embedding the
original query and the first-stage response. -/
def reasoning_prompt (original_query sql_response : String) : String :=
  "\nYou are an expert data analyst and business intelligence consultant. Your task is to analyze SQL query results and provide insightful, actionable interpretations.\n\nOriginal User Query: " ++
  original_query ++
  "\n\nSQL Agent Response: " ++
  sql_response ++
  "\n\nPlease provide a comprehensive analysis that includes:\n\n1. Key Insights: What are the most important findings from the data?\n2. Business Implications: What do these findings mean in a business context?\n3. Trends or Patterns: Are there any notable trends or patterns in the data?\n4. Recommendations: Based on the findings, what actionable recommendations would you suggest?\n5. Data Quality Notes: Are there any limitations or considerations about the data?\n\nFormat your response in a clear, professional manner suitable for business stakeholders.\nUse markdown formatting for better readability with headers, bullet points, and emphasis where appropriate.\n"

/-- `_add_reasoning` (`src/planning_agent.py` lines 107-155).  The whole
body sits in a `try`; the only fallible step is the second-stage model
call, modelled as `llm : String → Except String String` (`Except.error e`
is the call raising an exception whose `str` is `e`).  On success the
first-stage response and the model text are combined under an
"Enhanced Analysis" heading; on failure the `except` branch returns the
first-stage response followed by the fixed failure note — it never
re-raises. -/
def add_reasoning (original_query sql_response : String)
    (llm : String → Except String String) : String :=
  match llm (reasoning_prompt original_query sql_response) with
  | .ok response_text =>
    "## Original Response\n" ++ sql_response ++ "\n\n## Enhanced Analysis\n" ++
      response_text ++ "\n"
  | .error e =>
    "## Original Response\n" ++ sql_response ++
      "\n\n## Analysis\nUnable to generate enhanced analysis due to: " ++ e ++
      "\n\nThe raw data from the SQL query is shown above.\n"

/-- The fixed help text of the fallback path (`src/adk_agent.py` lines
387-396), with the configured dataset and table names and the original
prompt interpolated. -/
def helpMessage (dataset table prompt : String) : String :=
  "I'm an AI agent connected to your BigQuery data through an MCP server. \nI can help you explore your data in the " ++
  dataset ++ " dataset, specifically the " ++ table ++
  " table.\nFor best results, please configure your GOOGLE_API_KEY in the .env file to enable full LLM-powered analysis.\nTry asking questions like:\n- 'What datasets do I have?'\n- 'Show me the first 10 rows of data'\n- 'How many rows are in my table?'\n- 'What stocks have a valid industry?'\n\nYou asked: '" ++
  prompt ++ "'"

/-- The static configure-the-model message of the fallback path's final
`else` branch (`src/adk_agent.py` lines 400-403). -/
def configureModelMessage (prompt : String) : String :=
  "For more intelligent analysis of your query: '" ++ prompt ++
  "', \nplease configure your GOOGLE_API_KEY in the .env file. \nThis will enable the LLM to understand your question and generate appropriate SQL queries.\nCurrently, I can help with basic dataset listing. For advanced analysis, LLM configuration is required."

/-- The deterministic fallback path of `run_agent`
(`src/adk_agent.py` lines 370-403), reached when no model is available.
Branches, in order, by plain substring tests on the lowercased prompt:
the list-datasets intent; the show-rows intent — which requires the
literal substring `"indianapi"` in the prompt besides a show/display/get
word and a row/data/record word, and only then issues
`SELECT * FROM <project>.<dataset>.<table> LIMIT 10` to the client and
renders the result as a markdown table; the help intent; and otherwise
the static configure-the-model message. -/
def fallback_response (prompt : String) (project dataset table : String)
    (client : BQClient) : String :=
  let prompt_lower := pyLower prompt
  if strContainsSub prompt_lower "dataset" &&
     (strContainsSub prompt_lower "what" || strContainsSub prompt_lower "list" ||
      strContainsSub prompt_lower "have") then
    "Here are your datasets: " ++
      (if client.list_datasets.isEmpty then "No datasets found"
       else String.intercalate ", " client.list_datasets)
  else if (strContainsSub prompt_lower "show" || strContainsSub prompt_lower "display" ||
           strContainsSub prompt_lower "get") &&
          strContainsSub prompt_lower "indianapi" &&
          (strContainsSub prompt_lower "row" || strContainsSub prompt_lower "data" ||
           strContainsSub prompt_lower "record") then
    "First 10 rows of " ++ table ++ " table:\n" ++
      format_sql_results_as_table (client.execute_query
        ("SELECT * FROM `" ++ project ++ "." ++ dataset ++ "." ++ table ++ "` LIMIT 10"))
  else if strContainsSub prompt_lower "help" || strContainsSub prompt_lower "what can" then
    helpMessage dataset table prompt
  else
    configureModelMessage prompt

example :
    fallback_response "Show me the first 10 rows" "p" "d" "t" testClient =
      configureModelMessage "Show me the first 10 rows" := rfl

example :
    fallback_response "show me the first 10 rows of indianapi" "p" "d" "t" testClient =
      "First 10 rows of t table:\n" ++
        format_sql_results_as_table (testClient.execute_query
          "SELECT * FROM `p.d.t` LIMIT 10") := rfl

/-- The fixed failure note appended by `_add_reasoning`'s `except`
branch, with the exception text interpolated. -/
def enhancementFailureNote (e : String) : String :=
  "\n\n## Analysis\nUnable to generate enhanced analysis due to: " ++ e ++
    "\n\nThe raw data from the SQL query is shown above.\n"

/-- The result of the last call in the batch whose tool is
`get_table_info` or `execute_sql`, if any: the value the scan at
`src/adk_agent.py` lines 278-283 leaves in `query_results`. -/
def lastRelevantResult : List ToolResult → Option RVal
  | [] => none
  | r :: rest =>
    match lastRelevantResult rest with
    | some v => some v
    | none =>
      if r.tool == "get_table_info" || r.tool == "execute_sql" then some r.result
      else none

/-! Helper lemmas about the association-list dict operations. -/

theorem hasKey_setKey_self (k : String) (v : α) (l : List (String × α)) :
    hasKey k (setKey k v l) = true := by
  unfold setKey
  by_cases h : hasKey k l = true
  · rw [if_pos h]
    unfold hasKey at h ⊢
    rw [List.any_eq_true] at h ⊢
    obtain ⟨p, hp, hpk⟩ := h
    refine ⟨(k, v), List.mem_map.mpr ⟨p, hp, ?_⟩, by simp⟩
    simp [hpk]
  · rw [if_neg h]
    unfold hasKey
    simp

theorem hasKey_delKey_of_ne (k k' : String) (l : List (String × α)) (h : k ≠ k') :
    hasKey k (delKey k' l) = hasKey k l := by
  induction l with
  | nil => rfl
  | cons p t ih =>
    by_cases hp : p.1 = k'
    · have h2 : (k' == k) = false := beq_eq_false_iff_ne.mpr (fun e => h e.symm)
      simp [delKey, hasKey, hp, h2] at ih ⊢
      exact ih
    · simp [delKey, hasKey, hp] at ih ⊢
      rw [ih]

theorem getKey_append_of_absent (k : String) (r extras : List (String × α))
    (hx : ∀ p ∈ extras, p.1 ≠ k) :
    getKey k (r ++ extras) = getKey k r := by
  induction r with
  | nil =>
    rw [List.nil_append]
    have hnone : extras.find? (fun p => p.1 == k) = none :=
      List.find?_eq_none.mpr (fun p hp hbeq => hx p hp (eq_of_beq hbeq))
    unfold getKey
    rw [hnone]
    rfl
  | cons p t ih =>
    rw [List.cons_append]
    unfold getKey at ih ⊢
    simp only [List.find?]
    cases hpk : (p.1 == k)
    · simpa using ih
    · simp

/-- If some key is present, the `execute_sql` alias normalization with a
true `query`-present test leaves the arguments untouched. -/
theorem normalize_noop_of_query (args : Args) (h : hasKey "query" args = true) :
    normalize_execute_sql_args args = args := by
  unfold normalize_execute_sql_args
  simp [h]

theorem normalize_execute_sql_args_idem (args : Args) :
    normalize_execute_sql_args (normalize_execute_sql_args args) =
      normalize_execute_sql_args args := by
  by_cases h1 : (hasKey "sql" args && !hasKey "query" args) = true
  · have hr : normalize_execute_sql_args args =
        delKey "sql" (setKey "query" ((getKey "sql" args).getD "") args) := by
      unfold normalize_execute_sql_args
      rw [if_pos h1]
    apply normalize_noop_of_query
    rw [hr, hasKey_delKey_of_ne _ _ _ (by decide), hasKey_setKey_self]
  · by_cases h2 : (hasKey "sql_query" args && !hasKey "query" args) = true
    · have hr : normalize_execute_sql_args args =
          delKey "sql_query" (setKey "query" ((getKey "sql_query" args).getD "") args) := by
        unfold normalize_execute_sql_args
        rw [if_neg h1, if_pos h2]
      apply normalize_noop_of_query
      rw [hr, hasKey_delKey_of_ne _ _ _ (by decide), hasKey_setKey_self]
    · have hr : normalize_execute_sql_args args = args := by
        unfold normalize_execute_sql_args
        rw [if_neg h1, if_neg h2]
      rw [hr]
      exact hr

/-- C1: the claim says `format_sql_results_as_table` returns exactly
`"No results found."` on the empty sequence.  The code's first guard
`if not results or not isinstance(results, list)` already fires on the
empty list (which is falsy) and returns `str([])`, the string `"[]"`;
the dedicated `len(results) == 0` branch that would return
`"No results found."` is dead code.  This theorem evaluates the embedded
formatter at the failing input. -/
theorem c1_empty_input_renders_python_repr :
    format_sql_results_as_table [] = "[]" ∧
      format_sql_results_as_table [] ≠ "No results found." :=
  ⟨rfl, by decide⟩

/-- C3 counterexample: the analytical-path classifier of `run_agent`
(`is_analysis_query`, `src/adk_agent.py` lines 267-268) uses plain
substring containment, so the query "I want to re-analyzer this" — in
which the keyword `analyze` occurs only inside the longer word
`re-analyzer` — IS classified as analytical, contradicting the claim
that it must not be. -/
theorem c3_counterexample :
    is_analysis_query "I want to re-analyzer this" = true := rfl

/-- C3 (amended): word-boundary matching is used by the enhancement-path
classifier `_needs_complex_reasoning` (`src/planning_agent.py`), which
indeed rejects `analyze` inside `re-analyzer` and accepts it standalone;
the analytical-path classifier `is_analysis_query` in `run_agent` uses
substring containment and classifies both queries as analytical. -/
theorem c3_amended_classifier_split :
    needs_complex_reasoning "I want to re-analyzer this" = false ∧
    needs_complex_reasoning "please analyze this" = true ∧
    is_analysis_query "I want to re-analyzer this" = true ∧
    is_analysis_query "please analyze this" = true :=
  ⟨rfl, rfl, rfl, rfl⟩

/-! Helper lemmas about substring containment, used for the enhancement
failure note. -/

theorem containsSeq_nil_left (t : List Char) : containsSeq [] t = true := by
  induction t with
  | nil => rfl
  | cons c rest ih => simp [containsSeq, List.isPrefixOf]

theorem containsSeq_append_right (n h t : List Char)
    (hc : containsSeq n h = true) : containsSeq n (h ++ t) = true := by
  induction h with
  | nil =>
    unfold containsSeq at hc
    have : n = [] := by
      cases n with
      | nil => rfl
      | cons a b => simp [List.isEmpty] at hc
    subst this
    exact containsSeq_nil_left t
  | cons c h' ih =>
    have hc' : (n.isPrefixOf (c :: h') || containsSeq n h') = true := hc
    show (n.isPrefixOf (c :: (h' ++ t)) || containsSeq n (h' ++ t)) = true
    rw [Bool.or_eq_true] at hc' ⊢
    rcases hc' with hpre | hrest
    · left
      rw [List.isPrefixOf_iff_prefix] at hpre ⊢
      exact hpre.trans (List.prefix_append (c :: h') t)
    · right
      exact ih hrest

/-- C9: for every first-stage result string, if the second-stage
enhancement model call raises, `_add_reasoning` returns (the embedding
is a total function: the `except` branch never re-raises) a string that
is the complete first-stage result under the "Original Response"
heading followed by a note containing
"Unable to generate enhanced analysis"; the first-stage content is
never discarded. -/
theorem c9_enhancement_failure_preserves_first_stage
    (q r e : String) (llm : String → Except String String)
    (h : llm (reasoning_prompt q r) = .error e) :
    add_reasoning q r llm =
        "## Original Response\n" ++ r ++ enhancementFailureNote e ∧
      strContainsSub (enhancementFailureNote e)
        "Unable to generate enhanced analysis" = true := by
  constructor
  · unfold add_reasoning
    rw [h]
    unfold enhancementFailureNote
    rw [← String.append_assoc, ← String.append_assoc]
  · unfold strContainsSub enhancementFailureNote
    rw [String.data_append, String.data_append]
    apply containsSeq_append_right
    apply containsSeq_append_right
    decide

/-- C9 witness: a concrete run in which the enhancement model call
raises with text `"boom"`. -/
theorem c9_witness :
    add_reasoning "show me trends" "| a |\n|---|\n| 1 |"
        (fun _ => .error "boom") =
      "## Original Response\n" ++ "| a |\n|---|\n| 1 |" ++
        enhancementFailureNote "boom" ∧
    strContainsSub (enhancementFailureNote "boom")
        "Unable to generate enhanced analysis" = true :=
  c9_enhancement_failure_preserves_first_stage
    "show me trends" "| a |\n|---|\n| 1 |" "boom" (fun _ => .error "boom") rfl

/-- C7: query-tool argument normalization is idempotent and exclusive.
`{"sql": Q}` and `{"sql_query": Q}` (with no `"query"` key) normalize to
`{"query": Q}`; normalizing twice equals normalizing once; `{"sql": Q}`
and `{"query": Q}` dispatch to the same underlying call; and when a
`"query"` key is present the arguments are left untouched, so an
explicit `"query"` value is never dropped (the call then raises on the
surviving extra `"sql"` key rather than silently preferring it). -/
theorem c7_alias_normalization :
    (∀ Q : String, normalize_execute_sql_args [("sql", Q)] = [("query", Q)]) ∧
    (∀ Q : String, normalize_execute_sql_args [("sql_query", Q)] = [("query", Q)]) ∧
    (∀ args : Args, normalize_execute_sql_args (normalize_execute_sql_args args) =
        normalize_execute_sql_args args) ∧
    (∀ (client : BQClient) (Q : String),
        dispatch_one client "execute_sql" [("sql", Q)] =
          dispatch_one client "execute_sql" [("query", Q)]) ∧
    (∀ args : Args, hasKey "query" args = true →
        normalize_execute_sql_args args = args) :=
  ⟨fun _ => rfl, fun _ => rfl, normalize_execute_sql_args_idem,
    fun _ _ => rfl, normalize_noop_of_query⟩

/-- C7 witness: supplying both `sql` and `query` leaves the explicit
`query` value in place. -/
theorem c7_alias_normalization_witness :
    normalize_execute_sql_args [("sql", "SELECT 2"), ("query", "SELECT 3")] =
      [("sql", "SELECT 2"), ("query", "SELECT 3")] :=
  c7_alias_normalization.2.2.2.2 [("sql", "SELECT 2"), ("query", "SELECT 3")] (by decide)

/-- Unfolding equation of the dispatch loop on a non-empty batch. -/
theorem execute_tool_calls_cons (client : BQClient) (c : ToolCall)
    (rest : List ToolCall) :
    execute_tool_calls client (c :: rest) =
      match dispatch_one client c.name c.arguments with
      | .error e => .error e
      | .ok r =>
        match execute_tool_calls client rest with
        | .error e => .error e
        | .ok rs => .ok (⟨c.name, r⟩ :: rs) := rfl

/-- C2 counterexample: a batch whose first call raises (here a
`TypeError` from an unexpected keyword argument on `list_table_ids`,
whose arguments are passed through unfiltered) makes the whole dispatch
loop raise: the error is not wrapped as an error-shaped result for that
call, and the second call never executes — contradicting the claim that
no exception escapes the loop or prevents the remaining calls. -/
theorem c2_counterexample :
    execute_tool_calls testClient
        [⟨"list_table_ids", [("bogus_param", "x")]⟩, ⟨"list_dataset_ids", []⟩] =
      .error "TypeError: got an unexpected keyword argument" ∧
    execute_tool_calls testClient
        [⟨"list_table_ids", [("bogus_param", "x")]⟩, ⟨"list_dataset_ids", []⟩] ≠
      .ok [⟨"list_table_ids",
              .dict [("error", .str "TypeError: got an unexpected keyword argument")]⟩,
           ⟨"list_dataset_ids", .strs ["IndianAPI"]⟩] :=
  ⟨rfl, fun h => Except.noConfusion h⟩

/-- C2 (amended): the `{"error": str(exception)}` wrapping lives inside
the data-access client's own methods, not in the dispatch loop; the loop
has no per-call handler, so an exception raised while dispatching one
call propagates immediately (aborting the remaining calls of the batch),
while a batch whose head dispatches cleanly proceeds to the rest. -/
theorem c2_amended_exception_escapes_loop (client : BQClient) (c : ToolCall)
    (rest : List ToolCall) :
    (∀ m, dispatch_one client c.name c.arguments = .error m →
        execute_tool_calls client (c :: rest) = .error m) ∧
    (∀ r, dispatch_one client c.name c.arguments = .ok r →
        execute_tool_calls client (c :: rest) =
          (execute_tool_calls client rest).map (fun rs => ⟨c.name, r⟩ :: rs)) := by
  constructor
  · intro m hm
    rw [execute_tool_calls_cons, hm]
  · intro r hr
    cases hrest : execute_tool_calls client rest with
    | error e => rw [execute_tool_calls_cons, hr, hrest]; rfl
    | ok rs => rw [execute_tool_calls_cons, hr, hrest]; rfl

/-- C2 witness: a concrete aborted batch — `execute_sql` without any
argument raises a missing-argument `TypeError` that escapes the loop. -/
theorem c2_amended_witness :
    execute_tool_calls testClient
        [⟨"execute_sql", []⟩, ⟨"get_dataset_info", [("dataset_id", "IndianAPI")]⟩] =
      .error "TypeError: missing a required argument: query" :=
  (c2_amended_exception_escapes_loop testClient ⟨"execute_sql", []⟩
      [⟨"get_dataset_info", [("dataset_id", "IndianAPI")]⟩]).1
    "TypeError: missing a required argument: query" rfl

/-- Dispatching a call whose name is none of the five registered tool
names yields the `Unknown tool` error dict and never raises. -/
theorem dispatch_one_unknown (client : BQClient) (name : String) (args : Args)
    (h1 : name ≠ "list_dataset_ids") (h2 : name ≠ "get_dataset_info")
    (h3 : name ≠ "list_table_ids") (h4 : name ≠ "get_table_info")
    (h5 : name ≠ "execute_sql") :
    dispatch_one client name args =
      .ok (.dict [("error", .str ("Unknown tool: " ++ name))]) := by
  unfold dispatch_one
  rw [if_neg (by simp [h1]), if_neg (by simp [h2]), if_neg (by simp [h3]),
    if_neg (by simp [h4]), if_neg (by simp [h5])]

/-- C6 counterexample: in a batch that does contain an unknown-named
call (`"bogus"`), a `TypeError` raised by an earlier call aborts the
loop before the unknown call is reached, so no error-shaped result is
produced at the unknown call's position and the other call produces no
result either — contradicting the universally quantified claim. -/
theorem c6_counterexample :
    execute_tool_calls testClient
        [⟨"execute_sql", [("bad", "1"), ("query", "SELECT 1")]⟩, ⟨"bogus", []⟩] =
      .error "TypeError: got an unexpected keyword argument" ∧
    execute_tool_calls testClient
        [⟨"execute_sql", [("bad", "1"), ("query", "SELECT 1")]⟩, ⟨"bogus", []⟩] ≠
      .ok [⟨"execute_sql",
              .dict [("error", .str "TypeError: got an unexpected keyword argument")]⟩,
           ⟨"bogus", .dict [("error", .str "Unknown tool: bogus")]⟩] :=
  ⟨rfl, fun h => Except.noConfusion h⟩

/-- C6 (amended): provided every other call of the batch dispatches
without raising, an unknown-named call yields
`{"error": "Unknown tool: <name>"}` at its own position without raising,
and every other call executes and delivers its real result at its own
position; if some other call raises, the batch aborts there instead. -/
theorem c6_amended_unknown_tool_isolated (client : BQClient) (name : String)
    (args : Args)
    (h1 : name ≠ "list_dataset_ids") (h2 : name ≠ "get_dataset_info")
    (h3 : name ≠ "list_table_ids") (h4 : name ≠ "get_table_info")
    (h5 : name ≠ "execute_sql") :
    ∀ (pre post : List ToolCall) (rs1 rs2 : List ToolResult),
      execute_tool_calls client pre = .ok rs1 →
      execute_tool_calls client post = .ok rs2 →
      execute_tool_calls client (pre ++ ⟨name, args⟩ :: post) =
        .ok (rs1 ++ ⟨name, .dict [("error", .str ("Unknown tool: " ++ name))]⟩ :: rs2) := by
  intro pre
  induction pre with
  | nil =>
    intro post rs1 rs2 hpre hpost
    have hrs1 : rs1 = [] := by
      have h : (Except.ok [] : Except String (List ToolResult)) = .ok rs1 := hpre
      injection h with h
      exact h.symm
    subst hrs1
    rw [List.nil_append, List.nil_append]
    rw [execute_tool_calls_cons, dispatch_one_unknown client name args h1 h2 h3 h4 h5,
      hpost]
  | cons c t ih =>
    intro post rs1 rs2 hpre hpost
    rw [execute_tool_calls_cons] at hpre
    cases hd : dispatch_one client c.name c.arguments with
    | error e => rw [hd] at hpre; exact absurd hpre (by simp)
    | ok r =>
      rw [hd] at hpre
      cases ht : execute_tool_calls client t with
      | error e => rw [ht] at hpre; exact absurd hpre (by simp)
      | ok rs =>
        rw [ht] at hpre
        have hrs1 : rs1 = ⟨c.name, r⟩ :: rs := by
          have h : (Except.ok (ToolResult.mk c.name r :: rs) :
              Except String (List ToolResult)) = .ok rs1 := hpre
          injection h with h
          exact h.symm
        subst hrs1
        rw [List.cons_append, execute_tool_calls_cons, hd, ih post rs rs2 ht hpost]
        rfl

/-- C6 witness: a concrete batch with an unknown tool between two
well-formed calls; both neighbours deliver their real results. -/
theorem c6_amended_witness :
    execute_tool_calls testClient
        ([⟨"list_dataset_ids", []⟩] ++ ⟨"mystery_tool", []⟩ ::
          [⟨"execute_sql", [("query", "SELECT 1")]⟩]) =
      .ok ([⟨"list_dataset_ids", .strs ["IndianAPI"]⟩] ++
        ⟨"mystery_tool", .dict [("error", .str "Unknown tool: mystery_tool")]⟩ ::
          [⟨"execute_sql",
              .rows [[("Ticker", .str "TCS"), ("Sector", .str "Technology")]]⟩]) :=
  c6_amended_unknown_tool_isolated testClient "mystery_tool" []
    (by decide) (by decide) (by decide) (by decide) (by decide)
    [⟨"list_dataset_ids", []⟩] [⟨"execute_sql", [("query", "SELECT 1")]⟩]
    [⟨"list_dataset_ids", .strs ["IndianAPI"]⟩]
    [⟨"execute_sql", .rows [[("Ticker", .str "TCS"), ("Sector", .str "Technology")]]⟩]
    rfl rfl

theorem foldl_scan_snd (l : List ToolResult) :
    ∀ acc : Option RVal × Option RVal,
      (l.foldl analysisScanStep acc).2 =
        match lastRelevantResult l with
        | some v => some v
        | none => acc.2 := by
  induction l with
  | nil => intro acc; rfl
  | cons r t ih =>
    intro acc
    rw [List.foldl_cons, ih (analysisScanStep acc r)]
    cases hlt : lastRelevantResult t with
    | some v => simp [lastRelevantResult, hlt]
    | none =>
      by_cases hg : r.tool = "get_table_info"
      · simp [lastRelevantResult, hlt, analysisScanStep, hg]
      · by_cases he : r.tool = "execute_sql"
        · simp [lastRelevantResult, hlt, analysisScanStep, hg, he]
        · simp [lastRelevantResult, hlt, analysisScanStep, hg, he]

theorem queryResultsOf_eq_lastRelevant (results : List ToolResult) :
    queryResultsOf results = lastRelevantResult results := by
  unfold queryResultsOf scanResults
  rw [foldl_scan_snd]
  cases lastRelevantResult results <;> rfl

theorem isEmpty_false_of_hasKey (k : String) (r : List (String × α))
    (h : hasKey k r = true) : r.isEmpty = false := by
  cases r with
  | nil => exact absurd h (by simp [hasKey])
  | cons p t => rfl

/-- C5 counterexample: in a batch holding a query-execution result and
then a table-info result, the analytical formatter's `query_results`
variable ends up holding the table-info dict — the LAST relevant result
in batch order, not the query-execution result — and the output renders
the "Table Summary" section instead of the query-result table,
contradicting the claimed preference for the query-execution result. -/
theorem c5_counterexample :
    queryResultsOf
        [⟨"execute_sql", .rows [[("Sector", .str "Technology")]]⟩,
         ⟨"get_table_info", .dict [("table_id", .str "IndianAPI"),
            ("num_rows", .int 93), ("num_columns", .int 17)]⟩] =
      some (.dict [("table_id", .str "IndianAPI"), ("num_rows", .int 93),
        ("num_columns", .int 17)]) ∧
    queryResultsOf
        [⟨"execute_sql", .rows [[("Sector", .str "Technology")]]⟩,
         ⟨"get_table_info", .dict [("table_id", .str "IndianAPI"),
            ("num_rows", .int 93), ("num_columns", .int 17)]⟩] ≠
      some (.rows [[("Sector", .str "Technology")]]) ∧
    analytical_response "analyze the sector data"
        [⟨"execute_sql", .rows [[("Sector", .str "Technology")]]⟩,
         ⟨"get_table_info", .dict [("table_id", .str "IndianAPI"),
            ("num_rows", .int 93), ("num_columns", .int 17)]⟩] =
      "## Analysis Results\n\n" ++
        tableSummaryBlock [("table_id", .str "IndianAPI"), ("num_rows", .int 93),
          ("num_columns", .int 17)] :=
  ⟨rfl, by decide, rfl⟩

/-- C5 (amended): the analytical formatter's primary payload is the
result of the LAST call in batch order whose tool is `get_table_info` or
`execute_sql`, whichever kind it is — a table-info result arriving after
the last query-execution result overrides it; and when that last value
is a dict containing `table_id`, the "Table Summary" section is rendered
from it (so with several table-info results the last one, not the first,
supplies the summary fields). -/
theorem c5_amended_last_relevant_wins :
    (∀ results : List ToolResult,
        queryResultsOf results = lastRelevantResult results) ∧
    (∀ (prompt : String) (results : List ToolResult) (r : Record),
        queryResultsOf results = some (.dict r) →
        hasKey "table_id" r = true →
        analytical_response prompt results =
          "## Analysis Results\n\n" ++ tableSummaryBlock r) := by
  refine ⟨queryResultsOf_eq_lastRelevant, ?_⟩
  intro prompt results r hq htid
  have hne : r.isEmpty = false := isEmpty_false_of_hasKey "table_id" r htid
  unfold analytical_response
  rw [hq]
  simp [hne, htid]

/-- C5 witness: two table-info results in one batch — the summary is
rendered from the second (last) one. -/
theorem c5_amended_witness :
    analytical_response "summarize the table"
        [⟨"get_table_info", .dict [("table_id", .str "First"), ("num_rows", .int 1),
            ("num_columns", .int 1)]⟩,
         ⟨"get_table_info", .dict [("table_id", .str "Second"), ("num_rows", .int 93),
            ("num_columns", .int 17)]⟩] =
      "## Analysis Results\n\n" ++
        tableSummaryBlock [("table_id", .str "Second"), ("num_rows", .int 93),
          ("num_columns", .int 17)] :=
  c5_amended_last_relevant_wins.2 "summarize the table"
    [⟨"get_table_info", .dict [("table_id", .str "First"), ("num_rows", .int 1),
        ("num_columns", .int 1)]⟩,
     ⟨"get_table_info", .dict [("table_id", .str "Second"), ("num_rows", .int 93),
        ("num_columns", .int 17)]⟩]
    [("table_id", .str "Second"), ("num_rows", .int 93), ("num_columns", .int 17)]
    rfl (by decide)

/-- C8 counterexample: an integer cell whose string form has 51
characters is rendered in full by the markdown table renderer — numbers
are never truncated — contradicting the claim that every value whose
string form exceeds 50 characters is cut to 47 characters plus an
ellipsis. -/
theorem c8_counterexample :
    format_sql_results_as_table [[("n", .int (10 ^ 50))]] =
      "| n |\n|---|\n| " ++ toString (10 ^ 50 : Int) ++ " |" ∧
    (toString (10 ^ 50 : Int)).length = 51 ∧
    toString (10 ^ 50 : Int) ≠ (toString (10 ^ 50 : Int)).take 47 ++ "..." :=
  ⟨rfl, by decide, by decide⟩

/-- C8 (amended): the 47-plus-ellipsis truncation at the 50-character
boundary applies exactly to the `else` branch of the cell formatter —
string-like values: a string of length at most 50 (including exactly 50)
is rendered in full and a longer one as its first 47 characters plus
`"..."` — while `None` renders as `"NULL"` and boolean/integer values
render as their `str(...)` form untruncated whatever their length. -/
theorem c8_amended_truncation_boundary (s : String) :
    (s.length ≤ 50 → formatCell (.str s) = s) ∧
    (50 < s.length → formatCell (.str s) = s.take 47 ++ "...") ∧
    (∀ n : Int, formatCell (.int n) = toString n) ∧
    (∀ b : Bool, formatCell (.bool b) = (if b then "True" else "False")) ∧
    formatCell .null = "NULL" ∧
    (∀ v : Value, renderRow ["v"] [("v", v)] = "| " ++ formatCell v ++ " |") := by
  refine ⟨fun h => ?_, fun h => ?_, fun _ => rfl, fun _ => rfl, rfl, fun _ => rfl⟩
  · show (if s.length > 50 then s.take 47 ++ "..." else s) = s
    rw [if_neg (Nat.not_lt.mpr h)]
  · show (if s.length > 50 then s.take 47 ++ "..." else s) = s.take 47 ++ "..."
    rw [if_pos h]

/-- C8 witness: concrete strings of length exactly 50 and 51 at the
truncation boundary. -/
theorem c8_amended_witness :
    formatCell (.str (String.mk (List.replicate 50 'a'))) =
        String.mk (List.replicate 50 'a') ∧
    formatCell (.str (String.mk (List.replicate 51 'a'))) =
        (String.mk (List.replicate 51 'a')).take 47 ++ "..." :=
  ⟨(c8_amended_truncation_boundary (String.mk (List.replicate 50 'a'))).1 (by decide),
   (c8_amended_truncation_boundary (String.mk (List.replicate 51 'a'))).2.1 (by decide)⟩

/-- C4 counterexample: on the query "Show me the first 10 rows" the
fallback path returns the static configure-the-model message — the
show-rows branch is not taken, because its condition also requires the
substring `"indianapi"` in the lowercased prompt — and no query reaches
the data-access client, contradicting the claimed `SELECT * ... LIMIT
10` behaviour for this query. -/
theorem c4_counterexample :
    fallback_response "Show me the first 10 rows" "vertical-hook-453217-j9"
        "IndianAPI" "IndianAPI" testClient =
      configureModelMessage "Show me the first 10 rows" ∧
    fallback_response "Show me the first 10 rows" "vertical-hook-453217-j9"
        "IndianAPI" "IndianAPI" testClient ≠
      "First 10 rows of IndianAPI table:\n" ++
        format_sql_results_as_table (testClient.execute_query
          "SELECT * FROM `vertical-hook-453217-j9.IndianAPI.IndianAPI` LIMIT 10") :=
  ⟨rfl, by decide⟩

/-- C4 (amended): for the query "Show me the first 10 rows" the fallback
path returns the static configure-the-model message, for every client
and configuration; the `SELECT * ... LIMIT 10` path fires only when the
lowercased query also contains `"indianapi"`, in which case the issued
query is exactly `SELECT * FROM <project>.<dataset>.<table> LIMIT 10`
and the client's rows are rendered as a markdown table. -/
theorem c4_amended_fallback_requires_indianapi :
    (∀ (project dataset table : String) (client : BQClient),
        fallback_response "Show me the first 10 rows" project dataset table client =
          configureModelMessage "Show me the first 10 rows") ∧
    (∀ (project dataset table : String) (client : BQClient),
        fallback_response "Show me the first 10 rows of indianapi" project dataset
            table client =
          "First 10 rows of " ++ table ++ " table:\n" ++
            format_sql_results_as_table (client.execute_query
              ("SELECT * FROM `" ++ project ++ "." ++ dataset ++ "." ++ table ++
                "` LIMIT 10"))) :=
  ⟨fun _ _ _ _ => rfl, fun _ _ _ _ => rfl⟩

/-- C10: for a non-empty list of records whose first record has no
`error` key, the table is rendered as header, separator and one rendered
row per record in order; every rendered row has exactly one cell per
header column (the first record's keys); a record lacking a header key
renders the empty string in that column; and keys of a record outside
the header's key set do not affect its rendered cells. -/
theorem c10_row_shape_invariant (first : Record) (rest : List Record)
    (herr : hasKey "error" first = false) :
    (format_sql_results_as_table (first :: rest) =
      String.intercalate "\n"
        (("| " ++ String.intercalate " | " (first.map Prod.fst) ++ " |") ::
         ("|" ++ String.intercalate "|" ((first.map Prod.fst).map (fun _ => "---")) ++ "|") ::
         (first :: rest).map (renderRow (first.map Prod.fst)))) ∧
    (∀ row : Record,
        (rowValues (first.map Prod.fst) row).length = (first.map Prod.fst).length) ∧
    (∀ (row : Record) (i : Nat) (c : String),
        (first.map Prod.fst)[i]? = some c → getKey c row = none →
        (rowValues (first.map Prod.fst) row)[i]? = some "") ∧
    (∀ (row extras : Record),
        (∀ p ∈ extras, p.1 ∉ first.map Prod.fst) →
        rowValues (first.map Prod.fst) (row ++ extras) =
          rowValues (first.map Prod.fst) row) := by
  refine ⟨?_, ?_, ?_, ?_⟩
  · simp [format_sql_results_as_table, herr]
  · intro row
    unfold rowValues
    rw [List.length_map]
  · intro row i c hi hnone
    unfold rowValues
    rw [List.getElem?_map, hi]
    simp [formatCellD, hnone, formatCell]
  · intro row extras hx
    unfold rowValues
    apply List.map_congr_left
    intro c hc
    rw [getKey_append_of_absent c row extras
      (fun p hp hpc => hx p hp (hpc ▸ hc))]

/-- C10 witness: a two-record table whose second record misses the
header key `a` and carries an extra key `b`. -/
theorem c10_witness :
    (rowValues (([("a", Value.int 1)] : Record).map Prod.fst)
        [("b", Value.str "x")]).length =
      (([("a", Value.int 1)] : Record).map Prod.fst).length ∧
    (rowValues (([("a", Value.int 1)] : Record).map Prod.fst)
        [("b", Value.str "x")])[0]? = some "" :=
  ⟨(c10_row_shape_invariant [("a", Value.int 1)] [[("b", Value.str "x")]]
      (by decide)).2.1 [("b", Value.str "x")],
   (c10_row_shape_invariant [("a", Value.int 1)] [[("b", Value.str "x")]]
      (by decide)).2.2.1 [("b", Value.str "x")] 0 "a" rfl rfl⟩

end BQMCP
